import Mathlib

/-!
Verification of `procurement_optimization.py`: a shallow embedding over ℝ of
the cost model, closed-form EOQ estimator and per-SKU analysis, together with
theorems settling the specification claims.

Python floats are modelled as real numbers. Python's `float('inf')` return
value is modelled by the dedicated constructor `PyFloat.inf`; exceptions the
embedded code can raise (`ZeroDivisionError` from `/`, `ValueError` from
`math.sqrt` on a negative argument) are modelled by `Except PyError`.
-/

/-- Model of the values `calculate_total_cost` can return: an ordinary float
(a real number) or `float('inf')`. -/
inductive PyFloat where
  | val (x : ℝ) : PyFloat
  | inf : PyFloat

/-- Python exceptions the embedded numeric code can raise. -/
inductive PyError where
  | zeroDivisionError : PyError
  | valueError : PyError
deriving DecidableEq

/-- Strict order on modelled float values: `inf` is above every float. -/
def PyFloat.lt : PyFloat → PyFloat → Prop
  | .val a, .val b => a < b
  | .val _, .inf => True
  | .inf, _ => False

/-- Non-strict order on modelled float values. -/
def PyFloat.le : PyFloat → PyFloat → Prop
  | .val a, .val b => a ≤ b
  | .val _, .inf => True
  | .inf, .val _ => False
  | .inf, .inf => True

/-- Embedding of `calculate_total_cost(Q, D_annual, cost_per_unit,
transport_cost, capital_rate, storage_cost)` (lines 14-48 of the source):
if `Q <= 0` it returns `float('inf')`; otherwise
`n_orders = D_annual / Q`, `total_transport = n_orders * transport_cost`,
`avg_inventory = Q / 2`, `capital_cost = avg_inventory * cost_per_unit *
capital_rate`, `total_storage = avg_inventory * storage_cost`, and the sum
is returned. No other branch, validation or exception exists in the source. -/
noncomputable def calculate_total_cost (Q D_annual cost_per_unit transport_cost
    capital_rate storage_cost : ℝ) : PyFloat :=
  if Q ≤ 0 then .inf
  else
    .val (D_annual / Q * transport_cost
      + Q / 2 * cost_per_unit * capital_rate
      + Q / 2 * storage_cost)

/-- Modelled from the spec: the reference total-cost formula of section 4.1
(`ordersPerYear = demandRate / Q`, `transportCost = ordersPerYear ×
fixedCostPerOrder`, `averageInventory = Q / 2`, `capitalCost =
averageInventory × unitCost × capitalRate`, `storageCost = averageInventory ×
storageRate`, `total` their sum). Used only as the refinement target the
code's cost model is compared against. -/
noncomputable def spec_total_cost (Q demandRate unitCost fixedCostPerOrder
    capitalRate storageRate : ℝ) : ℝ :=
  demandRate / Q * fixedCostPerOrder
    + Q / 2 * unitCost * capitalRate
    + Q / 2 * storageRate

/-- Embedding of `economic_order_quantity(D_annual, transport_cost,
holding_cost_rate)` (lines 75-86): `math.sqrt((2 * D_annual * transport_cost)
/ holding_cost_rate)`, with Python's evaluation faithfully modelled — the
division raises `ZeroDivisionError` when the divisor is zero, and `math.sqrt`
raises `ValueError` on a negative argument. The source contains no explicit
validation of its own. -/
noncomputable def economic_order_quantity (D_annual transport_cost
    holding_cost_rate : ℝ) : Except PyError ℝ :=
  if holding_cost_rate = 0 then .error .zeroDivisionError
  else if 2 * D_annual * transport_cost / holding_cost_rate < 0 then
    .error .valueError
  else .ok (Real.sqrt (2 * D_annual * transport_cost / holding_cost_rate))

/-- Type of the external bounded scalar minimizer
(`scipy.optimize.minimize_scalar(objective, bounds=(lo, hi),
method='bounded')`): given the objective and the two bounds it returns the
pair `(result.x, result.fun)`. The numeric search itself is scipy library
code outside this repository, so the embedding is parameterized over it. -/
def Minimizer : Type :=
  (ℝ → PyFloat) → ℝ → ℝ → ℝ × PyFloat

/-- Embedding of `optimize_order_quantity` (lines 51-72): builds the
objective `Q ↦ calculate_total_cost(Q, ...)`, hands it to the bounded
minimizer with `bounds=(1, D_annual)`, and returns `(result.x, result.fun)`. -/
noncomputable def optimize_order_quantity (minimizer : Minimizer)
    (D_annual cost_per_unit transport_cost capital_rate storage_cost : ℝ) :
    ℝ × PyFloat :=
  minimizer
    (fun Q => calculate_total_cost Q D_annual cost_per_unit transport_cost
      capital_rate storage_cost)
    1 D_annual

/-- Embedding of the computational content of `analyze_sku` (lines 89-123,
printing elided): it derives `holding_cost = cost_per_unit * capital_rate +
storage_cost_per_unit`, calls `economic_order_quantity` (whose exception, if
any, propagates, and whose value is only printed), binds the optimizer's
pair `(opt_Q, opt_cost)`, then computes the printed diagnostics — line 115's
`n_orders = D_annual / opt_Q` raises `ZeroDivisionError` when `opt_Q` is 0,
and line 121's `(opt_Q / D_annual) * 365` raises `ZeroDivisionError` when
`D_annual` is 0 — and only past those does it return exactly the optimizer's
pair. The returned value is a plain pair with no tag of the method that
produced it. -/
noncomputable def analyze_sku (minimizer : Minimizer)
    (D_annual cost_per_unit transport_cost capital_rate
      storage_cost_per_unit : ℝ) : Except PyError (ℝ × PyFloat) :=
  Except.bind
    (economic_order_quantity D_annual transport_cost
      (cost_per_unit * capital_rate + storage_cost_per_unit))
    (fun _ =>
      let r := optimize_order_quantity minimizer D_annual cost_per_unit
        transport_cost capital_rate storage_cost_per_unit
      if r.1 = 0 then .error .zeroDivisionError
      else if D_annual = 0 then .error .zeroDivisionError
      else .ok r)

/-- The hardcoded candidate list `quantities = [50, 100, 200, 500, 1000,
2000]` of `compare_order_quantities` (line 133). -/
noncomputable def comparison_quantities : List ℝ :=
  [50, 100, 200, 500, 1000, 2000]

/-- Embedding of `compare_order_quantities` (lines 126-144): for each `Q` of
the hardcoded list, in order, the printed row `(Q, total cost, orders/year,
days of supply)`. Line 143's `days_supply = (Q / D_annual) * 365` raises
`ZeroDivisionError` on the first iteration when `D_annual` is 0, so no row
is produced then; otherwise the Python function prints the rows and returns
`None` — the printed rows are modelled as the result. It takes no sequence
of quantities as input. -/
noncomputable def compare_order_quantities
    (D_annual cost_per_unit transport_cost capital_rate storage_cost : ℝ) :
    Except PyError (List (ℝ × PyFloat × ℝ × ℝ)) :=
  if D_annual = 0 then .error .zeroDivisionError
  else
    .ok (comparison_quantities.map fun Q =>
      (Q,
        calculate_total_cost Q D_annual cost_per_unit transport_cost
          capital_rate storage_cost,
        D_annual / Q,
        Q / D_annual * 365))

/-- A stand-in minimizer used to instantiate the external-search parameter on
concrete inputs: it returns the lower bound and objective value 0. -/
def testMinimizer : Minimizer :=
  fun _ lo _ => (lo, .val 0)

/-- On the positive branch the cost model returns the plain formula value. -/
lemma calculate_total_cost_pos (Q D c S i s : ℝ) (hQ : 0 < Q) :
    calculate_total_cost Q D c S i s =
      .val (D / Q * S + Q / 2 * c * i + Q / 2 * s) := by
  unfold calculate_total_cost
  rw [if_neg (not_le.mpr hQ)]

/-- On the guarded branch the cost model returns `inf`. -/
lemma calculate_total_cost_nonpos (Q D c S i s : ℝ) (hQ : Q ≤ 0) :
    calculate_total_cost Q D c S i s = .inf := by
  unfold calculate_total_cost
  rw [if_pos hQ]

/-- The estimator succeeds whenever the divisor is nonzero and the sqrt
argument is nonnegative. -/
lemma economic_order_quantity_ok (D S H : ℝ) (hH : H ≠ 0)
    (hnn : 0 ≤ 2 * D * S / H) :
    economic_order_quantity D S H = .ok (Real.sqrt (2 * D * S / H)) := by
  unfold economic_order_quantity
  rw [if_neg hH, if_neg (not_lt.mpr hnn)]

/-- The estimator succeeds on the nominal domain `D ≥ 0`, `S ≥ 0`, `H > 0`. -/
lemma economic_order_quantity_ok_of_pos (D S H : ℝ) (hD : 0 ≤ D) (hS : 0 ≤ S)
    (hH : 0 < H) :
    economic_order_quantity D S H = .ok (Real.sqrt (2 * D * S / H)) :=
  economic_order_quantity_ok D S H (ne_of_gt hH)
    (div_nonneg (by positivity) hH.le)

/-- The estimator raises `ValueError` (the `math.sqrt` domain error) when the
sqrt argument is negative. -/
lemma economic_order_quantity_err (D S H : ℝ) (hH : H ≠ 0)
    (hneg : 2 * D * S / H < 0) :
    economic_order_quantity D S H = .error .valueError := by
  unfold economic_order_quantity
  rw [if_neg hH, if_pos hneg]

/-- When the closed-form step succeeds, the analysis reduces to the
diagnostics guards around the optimizer's pair. -/
lemma analyze_sku_ok_case (mz : Minimizer) (D c S i s v : ℝ)
    (h : economic_order_quantity D S (c * i + s) = .ok v) :
    analyze_sku mz D c S i s =
      (if (optimize_order_quantity mz D c S i s).1 = 0 then
        .error .zeroDivisionError
      else if D = 0 then .error .zeroDivisionError
      else .ok (optimize_order_quantity mz D c S i s)) := by
  unfold analyze_sku
  rw [h]
  rfl

/-- When the closed-form step raises, the analysis propagates its error. -/
lemma analyze_sku_error_case (mz : Minimizer) (D c S i s : ℝ) (e : PyError)
    (h : economic_order_quantity D S (c * i + s) = .error e) :
    analyze_sku mz D c S i s = .error e := by
  unfold analyze_sku
  rw [h]
  rfl

/-- C1: for every order quantity `Q > 0` and all parameter values, the code's
`calculate_total_cost` returns exactly the spec's reference formula
`(D/Q)*S + (Q/2)*c*i + (Q/2)*s` — transport, capital and storage components
summed. -/
theorem calculate_total_cost_matches_spec_formula
    (Q D c S i s : ℝ) (hQ : 0 < Q) :
    calculate_total_cost Q D c S i s = .val (spec_total_cost Q D c S i s) := by
  rw [calculate_total_cost_pos Q D c S i s hQ, spec_total_cost]

/-- Witness for C1 at `Q = 2`, `D = 4`, `c = 1`, `S = 3`, `i = 1`, `s = 1`. -/
theorem calculate_total_cost_matches_spec_formula_witness :
    0 < (2 : ℝ) ∧
      calculate_total_cost 2 4 1 3 1 1 = .val (spec_total_cost 2 4 1 3 1 1) :=
  ⟨by norm_num,
    calculate_total_cost_matches_spec_formula 2 4 1 3 1 1 (by norm_num)⟩

/-- C4: for every `Q ≤ 0` and every parameter values the cost model returns
`float('inf')`; the guard precedes the division by `Q`, so no division by a
non-positive `Q` occurs and no error is raised. -/
theorem calculate_total_cost_nonpos_inf
    (Q D c S i s : ℝ) (hQ : Q ≤ 0) :
    calculate_total_cost Q D c S i s = .inf :=
  calculate_total_cost_nonpos Q D c S i s hQ

/-- Witness for C4 at the two boundary inputs the claim names, `Q = 0` and
`Q = -5`. -/
theorem calculate_total_cost_nonpos_inf_witness :
    calculate_total_cost 0 12000 25 150 (1/10) 2 = .inf ∧
      calculate_total_cost (-5) 12000 25 150 (1/10) 2 = .inf :=
  ⟨calculate_total_cost_nonpos_inf 0 12000 25 150 (1/10) 2 (by norm_num),
    calculate_total_cost_nonpos_inf (-5) 12000 25 150 (1/10) 2 (by norm_num)⟩

/-- C9: the cost model is a total function on all real inputs: the result is
`inf` exactly when `Q ≤ 0`, and for every `Q > 0` — with no check on any
other parameter, which may be negative or otherwise invalid — it is the
finite formula value, which can itself be negative. -/
theorem calculate_total_cost_total_function (Q D c S i s : ℝ) :
    (calculate_total_cost Q D c S i s = .inf ↔ Q ≤ 0) ∧
      (0 < Q →
        calculate_total_cost Q D c S i s =
          .val (D / Q * S + Q / 2 * c * i + Q / 2 * s)) := by
  constructor
  · constructor
    · intro h
      by_contra hQ
      rw [calculate_total_cost_pos Q D c S i s (not_le.mp hQ)] at h
      exact PyFloat.noConfusion h
    · intro hQ
      exact calculate_total_cost_nonpos Q D c S i s hQ
  · intro hQ
    exact calculate_total_cost_pos Q D c S i s hQ

/-- Witness for C9 at `Q = 1` with the invalid parameter set `D = -2`
(negative demand): the model performs no parameter validation and returns
the negative value `-2`. -/
theorem calculate_total_cost_total_function_witness :
    (calculate_total_cost 1 (-2) 1 1 0 0 = .inf ↔ (1 : ℝ) ≤ 0) ∧
      calculate_total_cost 1 (-2) 1 1 0 0 = .val (-2) := by
  have h := calculate_total_cost_total_function 1 (-2) 1 1 0 0
  refine ⟨h.1, ?_⟩
  rw [h.2 (by norm_num)]
  norm_num

/-- Counterexample for C3: at `holding_cost_rate = 0` (with `D = 1`, `S = 1`)
the estimator does not signal a typed domain error — it raises
`ZeroDivisionError`, precisely the division-by-zero artifact the claim rules
out, and that is a different exception from the `ValueError` domain error
`math.sqrt` raises. -/
theorem economic_order_quantity_zero_holding_div_zero :
    economic_order_quantity 1 1 0 = .error .zeroDivisionError ∧
      PyError.zeroDivisionError ≠ PyError.valueError := by
  constructor
  · unfold economic_order_quantity
    rw [if_pos rfl]
  · decide

/-- C3 (amended): the estimator contains no validation of its own; its error
behavior is that of Python's operators. At `H = 0` it raises
`ZeroDivisionError`; for `H < 0` with `D * S > 0`, and likewise for `D < 0`
with `S > 0 < H`, the sqrt argument is negative and `math.sqrt` raises
`ValueError` (a math domain error); for `H > 0`, `D ≥ 0`, `S ≥ 0` it returns
`sqrt(2*D*S/H)` without error. -/
theorem economic_order_quantity_error_behavior (D S H : ℝ) :
    (H = 0 → economic_order_quantity D S H = .error .zeroDivisionError) ∧
      (H < 0 → 0 < D * S →
        economic_order_quantity D S H = .error .valueError) ∧
      (D < 0 → 0 < S → 0 < H →
        economic_order_quantity D S H = .error .valueError) ∧
      (0 ≤ D → 0 ≤ S → 0 < H →
        economic_order_quantity D S H =
          .ok (Real.sqrt (2 * D * S / H))) := by
    refine ⟨fun h0 => ?_, fun hH hDS => ?_, fun hD hS hH => ?_,
      fun hD hS hH => economic_order_quantity_ok_of_pos D S H hD hS hH⟩
    · unfold economic_order_quantity
      rw [if_pos h0]
    · refine economic_order_quantity_err D S H (ne_of_lt hH) ?_
      have hnum : 0 < 2 * D * S := by nlinarith
      exact div_neg_of_pos_of_neg hnum hH
    · refine economic_order_quantity_err D S H (ne_of_gt hH) ?_
      have hnum : 2 * D * S < 0 := by nlinarith
      exact div_neg_of_neg_of_pos hnum hH

/-- Witness for C3's amended statement: the no-error clause at
`D = 1`, `S = 1`, `H = 1`. -/
theorem economic_order_quantity_error_behavior_witness :
    0 ≤ (1 : ℝ) ∧ 0 < (1 : ℝ) ∧
      economic_order_quantity 1 1 1 = .ok (Real.sqrt (2 * 1 * 1 / 1)) :=
  ⟨by norm_num, by norm_num,
    (economic_order_quantity_error_behavior 1 1 1).2.2.2
      (by norm_num) (by norm_num) (by norm_num)⟩

/-- C6: for `D ≥ 0`, `S ≥ 0` and `H > 0`, doubling the fixed cost per order
scales the returned EOQ by `sqrt 2` (and both calls succeed). -/
theorem economic_order_quantity_scale_sqrt_two
    (D S H : ℝ) (hD : 0 ≤ D) (hS : 0 ≤ S) (hH : 0 < H) :
    economic_order_quantity D (2 * S) H =
      Except.map (fun x => Real.sqrt 2 * x) (economic_order_quantity D S H)
    := by
  have h1 := economic_order_quantity_ok_of_pos D S H hD hS hH
  have h2 := economic_order_quantity_ok_of_pos D (2 * S) H hD
    (by positivity) hH
  rw [h1, h2, Except.map]
  have harg : 2 * D * (2 * S) / H = 2 * (2 * D * S / H) := by ring
  rw [harg, Real.sqrt_mul (by norm_num : (0 : ℝ) ≤ 2)]

/-- Witness for C6 at `D = 2`, `S = 1`, `H = 1`. -/
theorem economic_order_quantity_scale_sqrt_two_witness :
    0 ≤ (2 : ℝ) ∧ 0 ≤ (1 : ℝ) ∧ 0 < (1 : ℝ) ∧
      economic_order_quantity 2 (2 * 1) 1 =
        Except.map (fun x => Real.sqrt 2 * x) (economic_order_quantity 2 1 1)
    :=
  ⟨by norm_num, by norm_num, by norm_num,
    economic_order_quantity_scale_sqrt_two 2 1 1 (by norm_num) (by norm_num)
      (by norm_num)⟩

/-- Comparison of modelled floats on the `val` constructor is real
comparison. -/
lemma PyFloat.lt_val_iff (a b : ℝ) : PyFloat.lt (.val a) (.val b) ↔ a < b :=
  Iff.rfl

/-- Non-strict comparison of modelled floats on the `val` constructor is
real comparison. -/
lemma PyFloat.le_val_iff (a b : ℝ) : PyFloat.le (.val a) (.val b) ↔ a ≤ b :=
  Iff.rfl

/-- Left of the crossing point `Q₁ Q₂ B < A`, the map `Q ↦ A/Q + B*Q` is
strictly decreasing. -/
lemma two_term_decr (A B Q₁ Q₂ : ℝ) (h1 : 0 < Q₁) (h12 : Q₁ < Q₂)
    (hAB : Q₁ * Q₂ * B < A) :
    A / Q₂ + B * Q₂ < A / Q₁ + B * Q₁ := by
  have h2 : 0 < Q₂ := h1.trans h12
  have key : (A / Q₁ + B * Q₁) - (A / Q₂ + B * Q₂) =
      (Q₂ - Q₁) * (A - Q₁ * Q₂ * B) / (Q₁ * Q₂) := by
    field_simp
    ring
  have hpos : 0 < (Q₂ - Q₁) * (A - Q₁ * Q₂ * B) / (Q₁ * Q₂) :=
    div_pos (mul_pos (by linarith) (by linarith)) (mul_pos h1 h2)
  rw [← key] at hpos
  linarith

/-- Right of the crossing point `A < Q₁ Q₂ B`, the map `Q ↦ A/Q + B*Q` is
strictly increasing. -/
lemma two_term_incr (A B Q₁ Q₂ : ℝ) (h1 : 0 < Q₁) (h12 : Q₁ < Q₂)
    (hAB : A < Q₁ * Q₂ * B) :
    A / Q₁ + B * Q₁ < A / Q₂ + B * Q₂ := by
  have h2 : 0 < Q₂ := h1.trans h12
  have key : (A / Q₂ + B * Q₂) - (A / Q₁ + B * Q₁) =
      (Q₂ - Q₁) * (Q₁ * Q₂ * B - A) / (Q₁ * Q₂) := by
    field_simp
    ring
  have hpos : 0 < (Q₂ - Q₁) * (Q₁ * Q₂ * B - A) / (Q₁ * Q₂) :=
    div_pos (mul_pos (by linarith) (by linarith)) (mul_pos h1 h2)
  rw [← key] at hpos
  linarith

/-- The code's positive-branch cost rearranges to the two-term form
`A/Q + B*Q` with `A = D*S` and `B = (c*i + s)/2`. -/
lemma cost_as_two_term (Q D c S i s : ℝ) :
    D / Q * S + Q / 2 * c * i + Q / 2 * s =
      D * S / Q + (c * i + s) / 2 * Q := by
  ring

/-- Counterexample for C5: with `D = 0` (and `S = 1 > 0`, holding cost
`c*i + s = 1*0 + 2 = 2 > 0`) the cost is strictly increasing everywhere on
`(0, ∞)` — halving any candidate strictly lowers it — so no minimizing `Q`
exists, refuting the claim's "exactly one minimizing Q" for this parameter
set. -/
theorem no_minimizer_when_demand_zero :
    ¬ ∃ Q : ℝ, 0 < Q ∧ ∀ Q₂ : ℝ, 0 < Q₂ →
      PyFloat.le (calculate_total_cost Q 0 1 1 0 2)
        (calculate_total_cost Q₂ 0 1 1 0 2) := by
  rintro ⟨Q, hQ, hmin⟩
  have hhalf : (0 : ℝ) < Q / 2 := by linarith
  have h1 := hmin (Q / 2) hhalf
  rw [calculate_total_cost_pos Q 0 1 1 0 2 hQ,
    calculate_total_cost_pos (Q / 2) 0 1 1 0 2 hhalf,
    PyFloat.le_val_iff] at h1
  have hQhalf : Q ≤ Q / 2 := by
    have hz1 : (0 : ℝ) / Q = 0 := zero_div Q
    have hz2 : (0 : ℝ) / (Q / 2) = 0 := zero_div (Q / 2)
    nlinarith [h1]
  linarith

/-- C5 (amended with the data-model invariant `demandRate > 0`): for every
parameter set with `D > 0`, `S > 0` and holding cost `c*i + s > 0`, writing
`m = sqrt(2*D*S/(c*i+s))`, the cost model is strictly decreasing on `(0, m]`,
strictly increasing on `[m, ∞)`, strictly minimal at `m` against every other
positive quantity, and has exactly one minimizing quantity on `(0, ∞)`. -/
theorem calculate_total_cost_unimodal (D c S i s : ℝ)
    (hD : 0 < D) (hS : 0 < S) (hH : 0 < c * i + s) :
    (∀ Q₁ Q₂ : ℝ, 0 < Q₁ → Q₁ < Q₂ →
      Q₂ ≤ Real.sqrt (2 * D * S / (c * i + s)) →
      PyFloat.lt (calculate_total_cost Q₂ D c S i s)
        (calculate_total_cost Q₁ D c S i s)) ∧
    (∀ Q₁ Q₂ : ℝ, Real.sqrt (2 * D * S / (c * i + s)) ≤ Q₁ → Q₁ < Q₂ →
      PyFloat.lt (calculate_total_cost Q₁ D c S i s)
        (calculate_total_cost Q₂ D c S i s)) ∧
    (∀ Q : ℝ, 0 < Q → Q ≠ Real.sqrt (2 * D * S / (c * i + s)) →
      PyFloat.lt
        (calculate_total_cost (Real.sqrt (2 * D * S / (c * i + s))) D c S i s)
        (calculate_total_cost Q D c S i s)) ∧
    (∃! Q : ℝ, 0 < Q ∧ ∀ Q₂ : ℝ, 0 < Q₂ →
      PyFloat.le (calculate_total_cost Q D c S i s)
        (calculate_total_cost Q₂ D c S i s)) := by
  set m := Real.sqrt (2 * D * S / (c * i + s)) with hm_def
  have hA : 0 < D * S := mul_pos hD hS
  have hB : 0 < (c * i + s) / 2 := by linarith
  have harg : 0 < 2 * D * S / (c * i + s) := by positivity
  have hm : 0 < m := Real.sqrt_pos.mpr harg
  have hm2 : m * m = 2 * D * S / (c * i + s) := Real.mul_self_sqrt harg.le
  have hm2A : m * m * ((c * i + s) / 2) = D * S := by
    rw [hm2]
    field_simp
    ring
  have hdec : ∀ Q₁ Q₂ : ℝ, 0 < Q₁ → Q₁ < Q₂ → Q₂ ≤ m →
      PyFloat.lt (calculate_total_cost Q₂ D c S i s)
        (calculate_total_cost Q₁ D c S i s) := by
    intro Q₁ Q₂ h1 h12 h2m
    have h2 : 0 < Q₂ := h1.trans h12
    rw [calculate_total_cost_pos Q₁ D c S i s h1,
      calculate_total_cost_pos Q₂ D c S i s h2, PyFloat.lt_val_iff,
      cost_as_two_term Q₁ D c S i s, cost_as_two_term Q₂ D c S i s]
    refine two_term_decr (D * S) ((c * i + s) / 2) Q₁ Q₂ h1 h12 ?_
    have hq12 : Q₁ * Q₂ < m * m :=
      lt_of_lt_of_le (mul_lt_mul_of_pos_right (h12.trans_le h2m) h2)
        (mul_le_mul_of_nonneg_left h2m hm.le)
    calc Q₁ * Q₂ * ((c * i + s) / 2)
        < m * m * ((c * i + s) / 2) := mul_lt_mul_of_pos_right hq12 hB
      _ = D * S := hm2A
  have hinc : ∀ Q₁ Q₂ : ℝ, m ≤ Q₁ → Q₁ < Q₂ →
      PyFloat.lt (calculate_total_cost Q₁ D c S i s)
        (calculate_total_cost Q₂ D c S i s) := by
    intro Q₁ Q₂ hm1 h12
    have h1 : 0 < Q₁ := lt_of_lt_of_le hm hm1
    have h2 : 0 < Q₂ := h1.trans h12
    rw [calculate_total_cost_pos Q₁ D c S i s h1,
      calculate_total_cost_pos Q₂ D c S i s h2, PyFloat.lt_val_iff,
      cost_as_two_term Q₁ D c S i s, cost_as_two_term Q₂ D c S i s]
    refine two_term_incr (D * S) ((c * i + s) / 2) Q₁ Q₂ h1 h12 ?_
    have hq12 : m * m < Q₁ * Q₂ :=
      lt_of_le_of_lt (mul_le_mul hm1 hm1 hm.le h1.le)
        (mul_lt_mul_of_pos_left h12 h1)
    calc D * S = m * m * ((c * i + s) / 2) := hm2A.symm
      _ < Q₁ * Q₂ * ((c * i + s) / 2) := mul_lt_mul_of_pos_right hq12 hB
  have hmin : ∀ Q : ℝ, 0 < Q → Q ≠ m →
      PyFloat.lt (calculate_total_cost m D c S i s)
        (calculate_total_cost Q D c S i s) := by
    intro Q hQ hne
    rcases lt_or_gt_of_ne hne with hlt | hgt
    · exact hdec Q m hQ hlt le_rfl
    · exact hinc m Q le_rfl hgt
  refine ⟨hdec, hinc, hmin, m, ⟨hm, ?_⟩, ?_⟩
  · intro Q₂ h2
    rcases eq_or_ne Q₂ m with heq | hne
    · rw [heq, calculate_total_cost_pos m D c S i s hm, PyFloat.le_val_iff]
    · have := hmin Q₂ h2 hne
      rw [calculate_total_cost_pos m D c S i s hm,
        calculate_total_cost_pos Q₂ D c S i s h2] at this ⊢
      rw [PyFloat.lt_val_iff] at this
      rw [PyFloat.le_val_iff]
      exact this.le
  · rintro y ⟨hy0, hymin⟩
    by_contra hne
    have hlt := hmin y hy0 hne
    have hle := hymin m hm
    rw [calculate_total_cost_pos m D c S i s hm,
      calculate_total_cost_pos y D c S i s hy0] at hlt hle
    rw [PyFloat.lt_val_iff] at hlt
    rw [PyFloat.le_val_iff] at hle
    linarith

/-- Witness for C5's amended statement at `D = c = S = i = s = 1`: the
strict-minimum clause applied at `Q = 2`, whose quantity differs from the
optimum `sqrt(2*1*1/(1*1+1)) = 1`. -/
theorem calculate_total_cost_unimodal_witness :
    0 < (1 : ℝ) ∧ 0 < (1 : ℝ) * 1 + 1 ∧
      PyFloat.lt
        (calculate_total_cost (Real.sqrt (2 * 1 * 1 / ((1 : ℝ) * 1 + 1)))
          1 1 1 1 1)
        (calculate_total_cost 2 1 1 1 1 1) :=
  ⟨by norm_num, by norm_num,
    (calculate_total_cost_unimodal 1 1 1 1 1 (by norm_num) (by norm_num)
        (by norm_num)).2.2.1 2 (by norm_num)
      (by
        rw [show (2 * 1 * 1 / ((1 : ℝ) * 1 + 1)) = 1 by norm_num,
          Real.sqrt_one]
        norm_num)⟩

/-- Counterexample for C7: at `demandRate = 0` no `DomainError` is signaled
and nothing is surfaced immediately — the closed-form step first computes
`EOQ = 0` normally (`economic_order_quantity 0 1 1 = ok 0`), and the
analysis then fails with `ZeroDivisionError` at line 121's days-of-supply
diagnostic `(opt_Q / D_annual) * 365`, a late division artifact distinct
from even the `ValueError` math domain error. -/
theorem analyze_sku_zero_demand_zero_division :
    analyze_sku testMinimizer 0 1 1 0 1 = .error .zeroDivisionError ∧
      economic_order_quantity 0 1 1 = .ok 0 ∧
      PyError.zeroDivisionError ≠ PyError.valueError := by
  refine ⟨?_, ?_, by decide⟩
  · rw [analyze_sku_ok_case testMinimizer 0 1 1 0 1 _
      (economic_order_quantity_ok_of_pos 0 1 ((1 : ℝ) * 0 + 1) le_rfl
        zero_le_one (by norm_num))]
    simp [optimize_order_quantity, testMinimizer]
  · rw [economic_order_quantity_ok_of_pos 0 1 1 le_rfl zero_le_one one_pos]
    norm_num [Real.sqrt_zero]

/-- C7 (amended): the repository code performs no demand-rate validation and
defines no `DomainError`, and no typed failure is surfaced immediately. At
`demandRate = 0` (with `S > 0` and holding cost `> 0`) the closed-form step
succeeds with `EOQ = 0` and the analysis fails only at the diagnostics
divisions after the optimizer call, with `ZeroDivisionError`, whatever pair
the external minimizer returns (in the actual run scipy's own bounds check —
code outside this repository — raises even earlier); for `demandRate < 0`
the first failure is `math.sqrt`'s `ValueError`, which propagates out of
`analyze_sku` after the report header has printed. -/
theorem analyze_sku_no_demand_validation (mz : Minimizer) (c S i s : ℝ)
    (hS : 0 < S) (hH : 0 < c * i + s) :
    analyze_sku mz 0 c S i s = .error .zeroDivisionError ∧
      ∀ D : ℝ, D < 0 → analyze_sku mz D c S i s = .error .valueError := by
  constructor
  · rw [analyze_sku_ok_case mz 0 c S i s _
      (economic_order_quantity_ok_of_pos 0 S (c * i + s) le_rfl hS.le hH)]
    rcases eq_or_ne (optimize_order_quantity mz 0 c S i s).1 0 with h | h
    · rw [if_pos h]
    · rw [if_neg h, if_pos rfl]
  · intro D hD
    have harg : 2 * D * S / (c * i + s) < 0 :=
      div_neg_of_neg_of_pos (by nlinarith) hH
    exact analyze_sku_error_case mz D c S i s _
      (economic_order_quantity_err D S (c * i + s) (ne_of_gt hH) harg)

/-- Witness for C7's amended statement: the negative-demand clause at
`D = -1` with `c = 1`, `S = 1`, `i = 0`, `s = 1`. -/
theorem analyze_sku_no_demand_validation_witness :
    0 < (1 : ℝ) ∧ (-1 : ℝ) < 0 ∧
      analyze_sku testMinimizer (-1) 1 1 0 1 = .error .valueError :=
  ⟨by norm_num, by norm_num,
    (analyze_sku_no_demand_validation testMinimizer 1 1 0 1 (by norm_num)
        (by norm_num)).2 (-1) (by norm_num)⟩

/-- Counterexample for C8: the comparison operation takes no sequence of
candidate quantities — for two unrelated parameter sets the quantity column
is the same hardcoded list `[50, 100, 200, 500, 1000, 2000]`. -/
theorem compare_order_quantities_fixed_list :
    Except.map (List.map Prod.fst)
        (compare_order_quantities 12000 25 150 (1 / 10) 2) =
        .ok [50, 100, 200, 500, 1000, 2000] ∧
      Except.map (List.map Prod.fst)
        (compare_order_quantities 5000 100 200 (1 / 10) 2) =
        .ok [50, 100, 200, 500, 1000, 2000] := by
  constructor
  · unfold compare_order_quantities
    rw [if_neg (by norm_num : (12000 : ℝ) ≠ 0)]
    simp [comparison_quantities, Except.map]
  · unfold compare_order_quantities
    rw [if_neg (by norm_num : (5000 : ℝ) ≠ 0)]
    simp [comparison_quantities, Except.map]

/-- C8 (amended): the comparison operation accepts no quantity sequence; at
`demandRate = 0` line 143's days-of-supply division raises
`ZeroDivisionError` on the first iteration and no row is produced, and for
every `demandRate ≠ 0` it ranges over the hardcoded list
`[50, 100, 200, 500, 1000, 2000]` and, for each quantity in that order,
prints (rather than returns — the Python function returns `None`) the cost
model's evaluation and the diagnostics orders/year `D/Q` and days of supply
`Q/D*365`. -/
theorem compare_order_quantities_rows (D c S i s : ℝ) :
    (D = 0 →
      compare_order_quantities D c S i s = .error .zeroDivisionError) ∧
    (D ≠ 0 → ∃ rows,
      compare_order_quantities D c S i s = .ok rows ∧
      rows.map Prod.fst = comparison_quantities ∧
      ∀ r ∈ rows,
        r.2.1 = calculate_total_cost r.1 D c S i s ∧
          r.2.2.1 = D / r.1 ∧ r.2.2.2 = r.1 / D * 365) := by
  constructor
  · intro h0
    unfold compare_order_quantities
    rw [if_pos h0]
  · intro hD
    refine ⟨comparison_quantities.map fun Q =>
      (Q, calculate_total_cost Q D c S i s, D / Q, Q / D * 365),
      ?_, ?_, ?_⟩
    · unfold compare_order_quantities
      rw [if_neg hD]
    · simp [comparison_quantities]
    · intro r hr
      simp only [List.mem_map] at hr
      obtain ⟨Q, _, rfl⟩ := hr
      exact ⟨rfl, rfl, rfl⟩

/-- Witness for C8's amended statement: its nonzero-demand clause at
`D = 1`, `c = 2`, `S = 3`, `i = 4`, `s = 5`. -/
theorem compare_order_quantities_rows_witness :
    (1 : ℝ) ≠ 0 ∧ ∃ rows,
      compare_order_quantities 1 2 3 4 5 = .ok rows ∧
      rows.map Prod.fst = comparison_quantities ∧
      ∀ r ∈ rows,
        r.2.1 = calculate_total_cost r.1 1 2 3 4 5 ∧
          r.2.2.1 = 1 / r.1 ∧ r.2.2.2 = r.1 / 1 * 365 :=
  ⟨by norm_num,
    (compare_order_quantities_rows 1 2 3 4 5).2 (by norm_num)⟩

/-- C10: whenever `analyze_sku` succeeds its result is exactly the pair
returned by `optimize_order_quantity` on the same parameters (for any
behavior of the external minimizer); the closed-form EOQ value computed
along the way is discarded after printing and cannot influence the result,
and the returned value is a bare pair carrying no tag of the producing
method. -/
theorem analyze_sku_returns_optimizer_pair (mz : Minimizer)
    (D c S i s : ℝ) (p : ℝ × PyFloat)
    (h : analyze_sku mz D c S i s = .ok p) :
    p = optimize_order_quantity mz D c S i s := by
  cases he : economic_order_quantity D S (c * i + s) with
  | error e =>
    rw [analyze_sku_error_case mz D c S i s e he] at h
    exact Except.noConfusion h
  | ok v =>
    rw [analyze_sku_ok_case mz D c S i s v he] at h
    by_cases h1 : (optimize_order_quantity mz D c S i s).1 = 0
    · rw [if_pos h1] at h
      exact Except.noConfusion h
    · rw [if_neg h1] at h
      by_cases h2 : D = 0
      · rw [if_pos h2] at h
        exact Except.noConfusion h
      · rw [if_neg h2] at h
        injection h with h
        exact h.symm

/-- Witness for C10 with the stand-in minimizer at `D = 1`, `c = 1`, `S = 1`,
`i = 0`, `s = 1`: the analysis succeeds with the pair `(1, 0)` and that pair
is the optimizer's. -/
theorem analyze_sku_returns_optimizer_pair_witness :
    analyze_sku testMinimizer 1 1 1 0 1 = .ok (1, PyFloat.val 0) ∧
      (1, PyFloat.val 0) = optimize_order_quantity testMinimizer 1 1 1 0 1
    := by
  have h : analyze_sku testMinimizer 1 1 1 0 1 = .ok (1, PyFloat.val 0) := by
    rw [analyze_sku_ok_case testMinimizer 1 1 1 0 1 _
      (economic_order_quantity_ok_of_pos 1 1 ((1 : ℝ) * 0 + 1) zero_le_one
        zero_le_one (by norm_num))]
    norm_num [optimize_order_quantity, testMinimizer]
  exact ⟨h, analyze_sku_returns_optimizer_pair testMinimizer 1 1 1 0 1 _ h⟩
